import Mathlib

/-!
Verification development for the AI-Study-Companion service.

The development shallowly embeds the decision logic of `src/app.py` and
`src/indexer-service/indexer.py`:
  * the Python string primitives the code relies on (`str.replace`,
    `str.split`, `str.startswith`, and the two anchored regexes),
  * `extract_document_metadata` (metadata extraction from a storage key),
  * `generate_unique_filename` (collision-free name allocation),
  * `search_document_content` (two-tier scoped retrieval),
  * the generation/response assembly of `analyze_script`,
  * `check_indexing_status` (index-status probe), and
  * the document-identifier derivations of `trigger_indexing` (app) and of
    the Pub/Sub indexer service (`hashlib.md5(name).hexdigest()`), with a
    full executable MD5.

External collaborators (object storage, the document index, the model) are
modelled as explicit values passed in: storage as a list of existing keys,
the index as a list of `{id, uri}` documents, search tiers as
`ok results / err` outcomes, the model response as its candidate list.
-/

namespace StudyCompanion

/-! ## Python string primitives -/

/-- Recursion core of `pyReplace`, structurally recursive on a fuel that
bounds the number of scanned positions; every step consumes at least one
character, so `fuel = s.length` fully evaluates the scan. -/
def pyReplaceAux (old new : List Char) : Nat → List Char → List Char
  | 0, _ => []
  | _ + 1, [] => []
  | fuel + 1, c :: rest =>
    if old ≠ [] ∧ old.isPrefixOf (c :: rest) then
      new ++ pyReplaceAux old new fuel ((c :: rest).drop old.length)
    else
      c :: pyReplaceAux old new fuel rest

/-- Python `s.replace(old, new)`: replace every non-overlapping occurrence of
`old` in `s`, scanning left to right.  (Used only with non-empty `old`;
for `old = []` Python inserts `new` between characters, a case the sources
never exercise.) -/
def pyReplace (s old new : List Char) : List Char :=
  pyReplaceAux old new s.length s

/-- Recursion core of `pySplit`, structurally recursive on a fuel that
bounds the number of scanned positions (`fuel = s.length` suffices). -/
def pySplitAux (sep : List Char) : Nat → List Char → List (List Char)
  | 0, _ => [[]]
  | _ + 1, [] => [[]]
  | fuel + 1, c :: rest =>
    if sep ≠ [] ∧ sep.isPrefixOf (c :: rest) then
      [] :: pySplitAux sep fuel ((c :: rest).drop sep.length)
    else
      match pySplitAux sep fuel rest with
      | [] => [[c]]        -- unreachable: pySplitAux never returns []
      | f :: fs => (c :: f) :: fs

/-- Python `s.split(sep)` with a non-empty separator: cut `s` at every
occurrence of `sep`; `"".split(sep) = [""]` and separators at the ends or
adjacent to each other yield empty fields. -/
def pySplit (sep s : List Char) : List (List Char) :=
  pySplitAux sep s.length s

/-- Python `s.startswith(p)`. -/
def pyStartsWith (s p : List Char) : Bool := p.isPrefixOf s

/-- `re.match(r'\d{4}-\d{2}-\d{2}', s)` as a Boolean: the regex is anchored
at the start of `s` only (`re.match` semantics), the rest of `s` is free. -/
def matchesDatePattern (s : List Char) : Bool :=
  match s with
  | d1 :: d2 :: d3 :: d4 :: h1 :: d5 :: d6 :: h2 :: d7 :: d8 :: _ =>
    d1.isDigit && d2.isDigit && d3.isDigit && d4.isDigit && h1 = '-' &&
    d5.isDigit && d6.isDigit && h2 = '-' && d7.isDigit && d8.isDigit
  | _ => false

/-- Helper for `matchesVersion`: after the leading `v`, the regex
`\d+\.\d+` must match at the start: one or more digits, a dot, one or more
digits (the tail of the string is unconstrained, `re.match` semantics). -/
def digitsDotDigits : List Char → Bool
  | [] => false
  | c :: rest =>
    if c.isDigit then
      -- consume the maximal run of digits, then require '.' digit+
      let afterDigits := rest.dropWhile Char.isDigit
      match afterDigits with
      | '.' :: d :: _ => d.isDigit
      | _ => false
    else false

/-- `re.match(r'v\d+\.\d+', s, re.IGNORECASE)` as a Boolean. -/
def matchesVersion (s : List Char) : Bool :=
  match s with
  | c :: rest => (c = 'v' || c = 'V') && digitsDotDigits rest
  | [] => false

/-- Decimal digit character, `0 ≤ n ≤ 9` (total, defaulting to `'0'`). -/
def decDigitChar : Nat → Char
  | 0 => '0' | 1 => '1' | 2 => '2' | 3 => '3' | 4 => '4'
  | 5 => '5' | 6 => '6' | 7 => '7' | 8 => '8' | 9 => '9'
  | _ => '0'

/-- Recursion core of `natToDigits`: fuel bounds the number of digits
(`fuel = n + 1` always suffices). -/
def natToDigitsAux : Nat → Nat → List Char
  | 0, _ => []
  | fuel + 1, n =>
    if n < 10 then [decDigitChar n]
    else natToDigitsAux fuel (n / 10) ++ [decDigitChar (n % 10)]

/-- Decimal rendering of a natural number, as Python `f"{n}"` renders a
non-negative `int`. -/
def natToDigits (n : Nat) : List Char :=
  natToDigitsAux (n + 1) n

/-! ## MetadataExtractor — `extract_document_metadata` (src/app.py:213) -/

/-- The metadata record built by `extract_document_metadata` (the Python
dict with keys `filename, chapter, topic, date, version`). -/
structure DocumentMetadata where
  filename : String
  chapter : String
  topic : String
  date : String
  version : String
deriving DecidableEq

/-- The tokenization step of `extract_document_metadata`:
`filename.replace('.pdf', '').split('_')` (src/app.py:229-230). -/
def extractTokens (filename : String) : List (List Char) :=
  pySplit "_".data (pyReplace filename.data ".pdf".data [])

/-- The chapter/topic scan of `extract_document_metadata`
(src/app.py:237-243): walk the tokens; on the first token starting with
`'Kapitel'` or `'kapitel'` take it as chapter and the immediately following
token (if any) as topic, then break.  Returns `([], [])` — both fields left
at their `""` initialisation — when no token matches. -/
def scanChapter : List (List Char) → List Char × List Char
  | [] => ([], [])
  | p :: rest =>
    if pyStartsWith p "Kapitel".data || pyStartsWith p "kapitel".data then
      (p, match rest with
          | [] => []
          | q :: _ => q)
    else scanChapter rest

/-- `extract_document_metadata` (src/app.py:213-258).  The `try/except`
around the body can never fire in this embedding (all operations are
total), matching the spec-level invariant that extraction never throws. -/
def extract_document_metadata (filename : String) : DocumentMetadata :=
  let parts := extractTokens filename
  let date := if parts ≠ [] ∧ matchesDatePattern (parts.headD []) then parts.headD [] else []
  let ct := scanChapter parts
  let topic := if ct.2 = [] ∧ 1 < parts.length then parts.getD 1 [] else ct.2
  let version := (parts.find? matchesVersion).getD []
  { filename := filename
    chapter := ⟨ct.1⟩
    topic := ⟨topic⟩
    date := ⟨date⟩
    version := ⟨version⟩ }

/-! ## NameAllocator — `generate_unique_filename` (src/app.py:260)

Storage is modelled as the list of keys that exist at call time; the
existence probe `bucket.blob(k).exists()` is membership in that list.  The
`while True` counter loop is modelled with an explicit fuel parameter
(`none` = fuel exhausted before an unused slot was reached); the degraded
path of the Python code (storage existence checks raising, answered with an
epoch-time-suffixed name) is wall-clock dependent and not modelled. -/

/-- `f"{timestamp}_{original_name}.pdf"` (src/app.py:269). -/
def baseCandidate (timestamp originalName : String) : String :=
  timestamp ++ "_" ++ originalName ++ ".pdf"

/-- `f"{timestamp}_{original_name}({counter}).pdf"` (src/app.py:278). -/
def mkCandidate (timestamp originalName : String) (counter : Nat) : String :=
  timestamp ++ "_" ++ originalName ++ "(" ++ ⟨natToDigits counter⟩ ++ ").pdf"

/-- The counter loop of `generate_unique_filename` (src/app.py:276-281). -/
def probeCounters (storage : List String) (timestamp originalName : String) :
    Nat → Nat → Option String
  | 0, _ => none
  | fuel + 1, counter =>
    let cand := mkCandidate timestamp originalName counter
    if cand ∈ storage then probeCounters storage timestamp originalName fuel (counter + 1)
    else some cand

/-- `generate_unique_filename(original_name, timestamp)` (src/app.py:260-286)
against the given storage contents. -/
def generate_unique_filename (storage : List String) (originalName timestamp : String)
    (fuel : Nat) : Option String :=
  let base := baseCandidate timestamp originalName
  if base ∈ storage then probeCounters storage timestamp originalName fuel 1
  else some base

/-! ## ScopedRetriever — `search_document_content` (src/app.py:288)

A search result (`result.document`) is modelled by the fields the code
reads.  `derived_struct_data` is `none` when the attribute is absent;
inside it, each optional field is `none` when the corresponding dict key is
absent.  An extractive-answer entry is its `'content'` value when that key
is present (`none` otherwise), a snippet entry its `'snippet'` value.  The
search calls themselves are modelled by their outcomes: `ok results` for a
normal response, `err` for a raised transport error. -/

structure DerivedData where
  extractive_answers : Option (List (Option String))
  snippets : Option (List (Option String))
  link : Option String

structure SearchDocument where
  derived_struct_data : Option DerivedData

inductive SearchOutcome where
  | ok (results : List SearchDocument)
  | err

/-- The two search calls `analyze` can trigger: the filtered (strict) one
and the unfiltered fallback. -/
structure SearchEnv where
  strict : SearchOutcome
  fallback : SearchOutcome

/-- Strict tier, one result slot (src/app.py:328-358): append every present
extractive-answer `content`, then every present `snippet`, then, if a
`link` key is present and its value is non-empty and not already among the
collected results, the link.  The `struct_data` branch (line 355) only
logs and appends nothing. -/
def strictStep (acc : List String) (doc : SearchDocument) : List String :=
  match doc.derived_struct_data with
  | none => acc
  | some d =>
    let acc1 :=
      match d.extractive_answers with
      | none => acc
      | some answers => acc ++ answers.filterMap id
    let acc2 :=
      match d.snippets with
      | none => acc1
      | some snippets => acc1 ++ snippets.filterMap id
    match d.link with
    | none => acc2
    | some link => if link ≠ "" ∧ link ∉ acc2 then acc2 ++ [link] else acc2

/-- Strict-tier collection over all result slots, in response order
(src/app.py:323-352). -/
def collectStrict (docs : List SearchDocument) : List String :=
  docs.foldl strictStep []

/-- Fallback tier, one result slot (src/app.py:378-392): only present
`snippet` values are appended, unconditionally. -/
def fallbackStep (acc : List String) (doc : SearchDocument) : List String :=
  match doc.derived_struct_data with
  | none => acc
  | some d =>
    match d.snippets with
    | none => acc
    | some snippets => acc ++ snippets.filterMap id

/-- Fallback-tier collection (src/app.py:377-392). -/
def collectFallback (docs : List SearchDocument) : List String :=
  docs.foldl fallbackStep []

/-- `search_document_content` (src/app.py:288-410).  A raised strict-tier
search call lands in the outer `except` (line 405) and returns `[]` — the
fallback block is skipped.  A raised fallback call is caught by the inner
`except` (line 400), leaving `results` empty. -/
def search_document_content (env : SearchEnv) : List String :=
  match env.strict with
  | .err => []
  | .ok docs =>
    let results := collectStrict docs
    if results = [] then
      match env.fallback with
      | .err => results
      | .ok fdocs => results ++ collectFallback fdocs
    else results

/-! ## GroundedGenerator and the `/analyze` endpoint (src/app.py:472) -/

/-- One `part` of the first candidate's content; `text` is `none` for a
missing/`None` text attribute. -/
structure ModelPart where
  text : Option String

structure ModelCandidate where
  parts : List ModelPart

/-- The model response, reduced to the fields `analyze_script` reads. -/
structure ModelResponse where
  candidates : List ModelCandidate

/-- Text assembly (src/app.py:561-565): concatenate the texts of the first
candidate's parts, skipping falsy (`None` or empty) texts. -/
def assembleText (response : ModelResponse) : String :=
  match response.candidates with
  | [] => ""
  | c :: _ =>
    c.parts.foldl
      (fun acc p =>
        match p.text with
        | none => acc
        | some t => if t ≠ "" then acc ++ t else acc) ""

/-- The observable outcomes of `analyze_script`: HTTP 400 for a missing or
falsy `file_name`, HTTP 404 with the indexing-delay hint when no chunks
were retrieved, HTTP 200 with the analysis payload otherwise. -/
inductive AnalyzeResponse where
  | missingFileName
  | notFound (error indexing_info : String)
  | ok (analysis_result : String) (used_sources : List String) (chunks_found : Nat)
deriving DecidableEq

/-- `file_name.split('/')[-1] if '/' in file_name else file_name`
(src/app.py:510). -/
def actualFilename (fileName : String) : String :=
  if '/' ∈ fileName.data then ⟨(pySplit "/".data fileName.data).getLastD []⟩
  else fileName

/-- The 404 error message of src/app.py:520. -/
def notFoundError (actual : String) : String :=
  "Keine Inhalte für Datei '" ++ actual ++ "' gefunden. Das Dokument wurde vermutlich noch nicht indexiert. Bitte warten Sie 5-30 Minuten nach dem Upload und versuchen Sie es erneut."

/-- The `indexing_info` field of the 404 payload (src/app.py:525). -/
def notFoundInfo : String :=
  "Discovery Engine benötigt 5-30 Minuten um hochgeladene Dokumente zu indexieren. Bitte warten Sie und versuchen Sie es später erneut."

/-- `analyze_script` (src/app.py:472-578), observable behaviour.
`fileName` is the JSON body's `file_name` (`none` when absent); the search
environment stands for the Discovery Engine answers to the one retrieval
`analyze` issues; `response` is the model's answer to the generation call.
The topic extraction (lines 490-507) only shapes the query and prompt
strings sent to those collaborators and does not otherwise influence the
observable response, so it is not re-modelled here. -/
def analyze_script (fileName : Option String) (env : SearchEnv)
    (response : ModelResponse) : AnalyzeResponse :=
  match fileName with
  | none => .missingFileName
  | some fn =>
    if fn = "" then .missingFileName
    else
      let actual := actualFilename fn
      let chunks := search_document_content env
      if chunks = [] then .notFound (notFoundError actual) notFoundInfo
      else
        .ok (assembleText response)
          ["gs://ai-study-companion-bucket/" ++ actual]
          chunks.length

/-! ## MD5 — `hashlib.md5(...).hexdigest()` as used by the indexer service

Executable MD5 (RFC 1321) over byte lists, words as `Nat` reduced modulo
`2^32`; the digest is rendered as 32 lowercase hex characters exactly as
`hexdigest()` renders it. -/

/-- The 64 round constants `K[i] = floor(2^32 * |sin(i+1)|)` of MD5. -/
def md5K : List Nat :=
  [0xd76aa478, 0xe8c7b756, 0x242070db, 0xc1bdceee,
   0xf57c0faf, 0x4787c62a, 0xa8304613, 0xfd469501,
   0x698098d8, 0x8b44f7af, 0xffff5bb1, 0x895cd7be,
   0x6b901122, 0xfd987193, 0xa679438e, 0x49b40821,
   0xf61e2562, 0xc040b340, 0x265e5a51, 0xe9b6c7aa,
   0xd62f105d, 0x02441453, 0xd8a1e681, 0xe7d3fbc8,
   0x21e1cde6, 0xc33707d6, 0xf4d50d87, 0x455a14ed,
   0xa9e3e905, 0xfcefa3f8, 0x676f02d9, 0x8d2a4c8a,
   0xfffa3942, 0x8771f681, 0x6d9d6122, 0xfde5380c,
   0xa4beea44, 0x4bdecfa9, 0xf6bb4b60, 0xbebfbc70,
   0x289b7ec6, 0xeaa127fa, 0xd4ef3085, 0x04881d05,
   0xd9d4d039, 0xe6db99e5, 0x1fa27cf8, 0xc4ac5665,
   0xf4292244, 0x432aff97, 0xab9423a7, 0xfc93a039,
   0x655b59c3, 0x8f0ccc92, 0xffeff47d, 0x85845dd1,
   0x6fa87e4f, 0xfe2ce6e0, 0xa3014314, 0x4e0811a1,
   0xf7537e82, 0xbd3af235, 0x2ad7d2bb, 0xeb86d391]

/-- The 64 per-round left-rotation amounts of MD5. -/
def md5S : List Nat :=
  [7, 12, 17, 22, 7, 12, 17, 22, 7, 12, 17, 22, 7, 12, 17, 22,
   5, 9, 14, 20, 5, 9, 14, 20, 5, 9, 14, 20, 5, 9, 14, 20,
   4, 11, 16, 23, 4, 11, 16, 23, 4, 11, 16, 23, 4, 11, 16, 23,
   6, 10, 15, 21, 6, 10, 15, 21, 6, 10, 15, 21, 6, 10, 15, 21]

/-- 32-bit left rotation on `Nat` words `< 2^32`. -/
def rotl32 (x c : Nat) : Nat :=
  ((x <<< c) ||| (x >>> (32 - c))) % 4294967296

/-- `x` little-endian in `n` bytes. -/
def leBytes (n x : Nat) : List Nat :=
  (List.range n).map (fun i => x / 256 ^ i % 256)

/-- MD5 padding: append `0x80`, zero-fill to 56 mod 64, append the original
bit length as 8 little-endian bytes. -/
def md5Pad (msg : List Nat) : List Nat :=
  msg ++ [0x80] ++ List.replicate ((119 - msg.length % 64) % 64) 0 ++
    leBytes 8 ((msg.length * 8) % 2 ^ 64)

/-- Recursion core of `toChunks`, fuel-bounded (`fuel = l.length`
suffices: every step consumes at least one byte). -/
def toChunksAux : Nat → List Nat → List (List Nat)
  | 0, _ => []
  | fuel + 1, l =>
    if l = [] then [] else l.take 64 :: toChunksAux fuel (l.drop 64)

/-- Split a (padded) byte list into 64-byte chunks. -/
def toChunks (l : List Nat) : List (List Nat) :=
  toChunksAux l.length l

/-- Word `j` (little-endian 32-bit) of a 64-byte chunk. -/
def chunkWord (chunk : List Nat) (j : Nat) : Nat :=
  chunk.getD (4 * j) 0 + 256 * chunk.getD (4 * j + 1) 0 +
    65536 * chunk.getD (4 * j + 2) 0 + 16777216 * chunk.getD (4 * j + 3) 0

/-- One MD5 round: mixing function and message-word index depend on the
round number `i`. -/
def md5Round (chunk : List Nat) (st : Nat × Nat × Nat × Nat) (i : Nat) :
    Nat × Nat × Nat × Nat :=
  let (a, b, c, d) := st
  let mask := 4294967295
  let (f, g) :=
    if i < 16 then ((b &&& c) ||| ((mask ^^^ b) &&& d), i)
    else if i < 32 then ((d &&& b) ||| ((mask ^^^ d) &&& c), (5 * i + 1) % 16)
    else if i < 48 then (b ^^^ c ^^^ d, (3 * i + 5) % 16)
    else (c ^^^ (b ||| (mask ^^^ d)), (7 * i) % 16)
  let f2 := (f + a + md5K.getD i 0 + chunkWord chunk g) % 4294967296
  (d, (b + rotl32 f2 (md5S.getD i 0)) % 4294967296, b, c)

/-- Process one 64-byte chunk into the running state. -/
def md5ProcessChunk (st : Nat × Nat × Nat × Nat) (chunk : List Nat) :
    Nat × Nat × Nat × Nat :=
  let (a0, b0, c0, d0) := st
  let (a, b, c, d) := (List.range 64).foldl (md5Round chunk) st
  ((a0 + a) % 4294967296, (b0 + b) % 4294967296,
   (c0 + c) % 4294967296, (d0 + d) % 4294967296)

/-- The 16-byte MD5 digest of a byte list. -/
def md5Digest (msg : List Nat) : List Nat :=
  let st := (toChunks (md5Pad msg)).foldl md5ProcessChunk
    (0x67452301, 0xefcdab89, 0x98badcfe, 0x10325476)
  leBytes 4 st.1 ++ leBytes 4 st.2.1 ++ leBytes 4 st.2.2.1 ++ leBytes 4 st.2.2.2

/-- Lowercase hex digit character, `0 ≤ n ≤ 15` (total, defaulting to `'0'`). -/
def hexDigitChar : Nat → Char
  | 0 => '0' | 1 => '1' | 2 => '2' | 3 => '3' | 4 => '4'
  | 5 => '5' | 6 => '6' | 7 => '7' | 8 => '8' | 9 => '9'
  | 10 => 'a' | 11 => 'b' | 12 => 'c' | 13 => 'd' | 14 => 'e' | 15 => 'f'
  | _ => '0'

/-- A byte as two lowercase hex characters (`'%02x'`). -/
def hexByte (b : Nat) : List Char :=
  [hexDigitChar (b / 16 % 16), hexDigitChar (b % 16)]

/-- UTF-8 encoding of one character (`str.encode('utf-8')`, per scalar
value). -/
def utf8EncodeChar (c : Char) : List Nat :=
  let n := c.toNat
  if n < 128 then [n]
  else if n < 2048 then [192 + n / 64, 128 + n % 64]
  else if n < 65536 then [224 + n / 4096, 128 + n / 64 % 64, 128 + n % 64]
  else [240 + n / 262144, 128 + n / 4096 % 64, 128 + n / 64 % 64, 128 + n % 64]

/-- `name.encode('utf-8')` as a byte list. -/
def utf8Encode (s : String) : List Nat :=
  s.data.foldr (fun c acc => utf8EncodeChar c ++ acc) []

/-- `hashlib.md5(s.encode('utf-8')).hexdigest()`. -/
def md5HexDigest (s : String) : String :=
  ⟨(md5Digest (utf8Encode s)).foldr (fun b acc => hexByte b ++ acc) []⟩

/-! ## Document identifiers and import requests

`check_indexing_status` (src/app.py:94) derives its lookup ID by character
replacement; the indexer service (src/indexer-service/indexer.py:70)
derives its ingestion ID as the MD5 hex digest of the object name. -/

/-- `filename.replace("/", "-").replace(".", "-")` (src/app.py:94). -/
def appDocId (filename : String) : String :=
  ⟨pyReplace (pyReplace filename.data "/".data "-".data) ".".data "-".data⟩

/-- `hashlib.md5(name.encode('utf-8')).hexdigest()`
(src/indexer-service/indexer.py:70). -/
def indexerDocId (name : String) : String :=
  md5HexDigest name

inductive ReconciliationMode where
  | INCREMENTAL
  | FULL
deriving DecidableEq

/-- The import request built by `trigger_indexing` (src/app.py:412-470):
a `GcsSource` pointing at the uploaded object, custom data schema,
incremental reconciliation; no document identifier is part of this
request (the service derives one). -/
structure AppImportRequest where
  parent : String
  inputUris : List String
  dataSchema : String
  reconciliationMode : ReconciliationMode
deriving DecidableEq

/-- `DATA_STORE_ID.split('/')[-1] if '/' in DATA_STORE_ID else DATA_STORE_ID`
(src/app.py:300, 435). -/
def shortDataStoreId (dataStoreId : String) : String :=
  if '/' ∈ dataStoreId.data then ⟨(pySplit "/".data dataStoreId.data).getLastD []⟩
  else dataStoreId

/-- `trigger_indexing` (src/app.py:412-470), reduced to the request it
issues. -/
def trigger_indexing (projectId dataStoreId gcsPath : String) : AppImportRequest :=
  { parent := "projects/" ++ projectId ++
      "/locations/europe-west1/collections/default_collection/dataStores/" ++
      shortDataStoreId dataStoreId ++ "/branches/default_branch"
    inputUris := ["gs://ai-study-companion-bucket/" ++ gcsPath]
    dataSchema := "custom"
    reconciliationMode := .INCREMENTAL }

/-- The import request built by the indexer service
(src/indexer-service/indexer.py:60-88): an inline document under the
MD5-derived ID, incremental reconciliation. -/
structure IndexerImportRequest where
  parent : String
  docId : String
  contentUri : String
  docName : String
  reconciliationMode : ReconciliationMode
deriving DecidableEq

/-- The indexer's Pub/Sub handler (src/indexer-service/indexer.py:46-91),
reduced to the import request it issues for a decoded `(bucket, name)`
event.  `client.branch_path` renders
`projects/{p}/locations/{l}/dataStores/{d}/branches/{b}`. -/
def indexerImportRequest (projectId location dataStoreId bucket name : String) :
    IndexerImportRequest :=
  let parent := "projects/" ++ projectId ++ "/locations/" ++ location ++
    "/dataStores/" ++ dataStoreId ++ "/branches/default_branch"
  { parent := parent
    docId := indexerDocId name
    contentUri := "gs://" ++ bucket ++ "/" ++ name
    docName := parent ++ "/documents/" ++ indexerDocId name
    reconciliationMode := .INCREMENTAL }

/-! ## IndexStatusProbe — `check_indexing_status` (src/app.py:81) -/

/-- A document as stored in the index: its resource ID and the source URI
it was ingested from. -/
structure IndexedDoc where
  id : String
  uri : String
deriving DecidableEq

/-- The index-service state seen by the probe: the configured
`DATA_STORE_ID` (`none` when the environment variable is unset, which makes
`'/' in DATA_STORE_ID` on line 90 raise into the outer `except`) and the
documents currently in the data store's branch. -/
structure IndexEnv where
  dataStoreId : Option String
  docs : List IndexedDoc

/-- The observable outcomes of `check_indexing_status`: 200 with
`indexed: true`, 404 with `indexed: false`, or the outer 500. -/
inductive ProbeResponse where
  | indexed (documentId : String)
  | notIndexed (documentId : String)
  | error
deriving DecidableEq

/-- `check_indexing_status` (src/app.py:81-115): derive the lookup ID by
character replacement and issue a direct `get_document`; the get succeeds
exactly when a document with that ID exists in the branch. -/
def check_indexing_status (filename : String) (env : IndexEnv) : ProbeResponse :=
  match env.dataStoreId with
  | none => .error
  | some _ =>
    let docId := appDocId filename
    if env.docs.any (fun d => d.id = docId) then .indexed docId
    else .notIndexed docId

/-! ## Comparison definitions following the spec's words

Each definition in this section deliberately follows specification
language rather than the source, to be compared against the embedded code
above. -/

/-- The extractive-answer texts the strict tier reads off one result slot
(all `content` values present, in order). -/
def extrTexts (doc : SearchDocument) : List String :=
  match doc.derived_struct_data with
  | none => []
  | some d =>
    match d.extractive_answers with
    | none => []
    | some answers => answers.filterMap id

/-- The snippet texts the strict tier reads off one result slot. -/
def snipTexts (doc : SearchDocument) : List String :=
  match doc.derived_struct_data with
  | none => []
  | some d =>
    match d.snippets with
    | none => []
    | some snippets => snippets.filterMap id

/-- The link of one result slot, when the key is present. -/
def linkText (doc : SearchDocument) : Option String :=
  doc.derived_struct_data.bind (fun d => d.link)

/-- What the code actually contributes for one strict-tier result slot,
given the chunks `acc` already collected from earlier slots: all
extractive-answer texts, then all snippet texts, then the link provided it
is non-empty and not yet among the collected chunks. -/
def resultChunks (acc : List String) (doc : SearchDocument) : List String :=
  extrTexts doc ++ snipTexts doc ++
    (match linkText doc with
     | none => []
     | some l =>
       if l ≠ "" ∧ l ∉ acc ++ extrTexts doc ++ snipTexts doc then [l] else [])

/-- Follows the claim's words (C1): per result, the chunk text is the
extractive-answer text if one is present, otherwise the snippet text if
present, otherwise a link as last resort — mutually exclusive, and with no
deduplication across result slots. -/
def claimResultChunks (doc : SearchDocument) : List String :=
  if extrTexts doc ≠ [] then extrTexts doc
  else if snipTexts doc ≠ [] then snipTexts doc
  else
    match linkText doc with
    | none => []
    | some l => [l]

/-- Strict-tier collection as the claim describes it. -/
def claimCollect (docs : List SearchDocument) : List String :=
  docs.foldl (fun acc doc => acc ++ claimResultChunks doc) []

/-- Follows the claim's words (C9): remove only the trailing `.pdf`
extension of the key, leaving every other character untouched. -/
def specStripTrailingExt (s : List Char) : List Char :=
  if ".pdf".data.isSuffixOf s then s.take (s.length - 4) else s

/-- `".pdf"` occurs in `s` at position `i`. -/
def pdfOccursAt (s : List Char) (i : Nat) : Bool :=
  ".pdf".data.isPrefixOf (s.drop i)

/-- The spec's `IndexStatus` enumeration (§3). -/
inductive IndexStatus where
  | INDEXED
  | PROCESSING
  | FAILED
deriving DecidableEq

/-- Follows the claim's words (C5, spec §4.4): list the documents under the
index's branch and linearly scan for an exact match of each listed
document's source URI against the requested URI; `INDEXED` on the first
match, `PROCESSING` if the listing completes without one, `FAILED` only if
the listing call itself errors (`none`). -/
def probeSpec (uri : String) (listing : Option (List IndexedDoc)) : IndexStatus :=
  match listing with
  | none => .FAILED
  | some docs => if docs.any (fun d => d.uri = uri) then .INDEXED else .PROCESSING

/-! ## Supporting lemmas -/

/-- One strict-tier step appends exactly the per-result chunk decomposition
`resultChunks` to the already collected chunks. -/
theorem strictStep_eq (acc : List String) (doc : SearchDocument) :
    strictStep acc doc = acc ++ resultChunks acc doc := by
  rcases doc with ⟨derived⟩
  cases derived with
  | none => simp [strictStep, resultChunks, extrTexts, snipTexts, linkText]
  | some d =>
    rcases d with ⟨ea, sn, lk⟩
    cases ea <;> cases sn <;> cases lk <;>
      simp [strictStep, resultChunks, extrTexts, snipTexts, linkText,
        List.append_assoc] <;>
      split_ifs <;> simp_all [List.append_assoc]

/-- A successful counter probe never returns a stored key. -/
theorem probeCounters_some_not_mem (storage : List String) (ts orig : String) :
    ∀ (fuel c : Nat) (name : String),
      probeCounters storage ts orig fuel c = some name → name ∉ storage := by
  intro fuel
  induction fuel with
  | zero => intro c name h; simp [probeCounters] at h
  | succ n ih =>
    intro c name h
    simp only [probeCounters] at h
    by_cases hm : mkCandidate ts orig c ∈ storage
    · rw [if_pos hm] at h
      exact ih (c + 1) name h
    · rw [if_neg hm] at h
      injection h with h
      exact h ▸ hm

/-- A successful counter probe returns the candidate of the first unused
counter at or above its starting counter: every counter below it (and at or
above the start) names a stored key. -/
theorem probeCounters_first (storage : List String) (ts orig : String) :
    ∀ (fuel c : Nat) (name : String),
      probeCounters storage ts orig fuel c = some name →
      ∃ j, c ≤ j ∧ name = mkCandidate ts orig j ∧ mkCandidate ts orig j ∉ storage ∧
        ∀ k, c ≤ k → k < j → mkCandidate ts orig k ∈ storage := by
  intro fuel
  induction fuel with
  | zero => intro c name h; simp [probeCounters] at h
  | succ n ih =>
    intro c name h
    simp only [probeCounters] at h
    by_cases hm : mkCandidate ts orig c ∈ storage
    · rw [if_pos hm] at h
      obtain ⟨j, hcj, hname, hnot, hall⟩ := ih (c + 1) name h
      refine ⟨j, by omega, hname, hnot, fun k hck hkj => ?_⟩
      rcases Nat.eq_or_lt_of_le hck with heq | hlt
      · exact heq ▸ hm
      · exact hall k hlt hkj
    · rw [if_neg hm] at h
      injection h with h
      exact ⟨c, le_rfl, h.symm, hm, fun k hck hkc => absurd hck (by omega)⟩

/-- Replacing a single character by a single character is a character map. -/
theorem pyReplaceAux_single (a b : Char) :
    ∀ (fuel : Nat) (s : List Char), s.length ≤ fuel →
      pyReplaceAux [a] [b] fuel s = s.map (fun c => if c = a then b else c) := by
  intro fuel
  induction fuel with
  | zero =>
    intro s hs
    have : s = [] := List.length_eq_zero.mp (Nat.le_zero.mp hs)
    subst this
    simp [pyReplaceAux]
  | succ n ih =>
    intro s hs
    cases s with
    | nil => simp [pyReplaceAux]
    | cons c rest =>
      simp only [pyReplaceAux, List.isPrefixOf, List.map_cons]
      by_cases hac : a = c
      · subst hac
        rw [if_pos ⟨by simp, by simp [List.isPrefixOf]⟩]
        simp only [List.length_singleton, List.drop_succ_cons, List.drop_zero]
        rw [ih rest (by simpa using hs)]
        simp
      · rw [if_neg (by simp [List.isPrefixOf, hac])]
        rw [ih rest (by simpa using hs)]
        simp [Ne.symm hac]

/-- `pyReplace` with single-character pattern and replacement is a map. -/
theorem pyReplace_single (s : List Char) (a b : Char) :
    pyReplace s [a] [b] = s.map (fun c => if c = a then b else c) :=
  pyReplaceAux_single a b s.length s le_rfl

/-- The status endpoint's derived document ID maps `'/'` and `'.'` to `'-'`
and keeps every other character. -/
theorem appDocId_data (name : String) :
    (appDocId name).data =
      (name.data.map (fun c => if c = '/' then '-' else c)).map
        (fun c => if c = '.' then '-' else c) := by
  show pyReplace (pyReplace name.data "/".data "-".data) ".".data "-".data = _
  rw [show "/".data = ['/'] from rfl, show ".".data = ['.'] from rfl,
    show "-".data = ['-'] from rfl, pyReplace_single, pyReplace_single]

/-- Hex digit characters are never `'-'`. -/
theorem hexDigitChar_ne_dash (n : Nat) : hexDigitChar n ≠ '-' := by
  unfold hexDigitChar
  split <;> decide

/-- An MD5 hex digest never contains `'-'`. -/
theorem dash_not_mem_md5HexDigest (s : String) : '-' ∉ (md5HexDigest s).data := by
  show '-' ∉ List.foldr (fun b acc => hexByte b ++ acc) [] (md5Digest (utf8Encode s))
  induction md5Digest (utf8Encode s) with
  | nil => simp
  | cons b rest ih =>
    simp only [List.foldr_cons, List.mem_append, hexByte, List.mem_cons,
      List.not_mem_nil, or_false, not_or]
    exact ⟨⟨fun he => hexDigitChar_ne_dash _ he.symm,
      fun he => hexDigitChar_ne_dash _ he.symm⟩, ih⟩

/-- A name containing `'.'` yields a dash in the status endpoint's derived
document ID. -/
theorem dash_mem_appDocId (name : String) (h : '.' ∈ name.data) :
    '-' ∈ (appDocId name).data := by
  rw [appDocId_data]
  have h1 : '.' ∈ name.data.map (fun c => if c = '/' then '-' else c) :=
    List.mem_map.mpr ⟨'.', h, by decide⟩
  exact List.mem_map.mpr ⟨'.', h1, by decide⟩

/-- Boolean prefix test agrees with the prefix relation on `List Char`. -/
theorem isPrefixOfChar_iff (l1 l2 : List Char) : l1.isPrefixOf l2 = true ↔ l1 <+: l2 :=
  List.isPrefixOf_iff_prefix

/-- Boolean suffix test agrees with the suffix relation on `List Char`. -/
theorem isSuffixOfChar_iff (l1 l2 : List Char) : l1.isSuffixOf l2 = true ↔ l1 <:+ l2 :=
  List.isSuffixOf_iff_suffix

/-! ## Claim theorems -/

/-- Claim C1, amended: the strict tier of `search_document_content`
collects, per result slot and in source ranking order, all
extractive-answer texts, then all snippet texts, and then the link provided
it is non-empty and not already among the previously collected chunks — the
three sources are cumulative, not mutually exclusive, and the link (and
only the link) is deduplicated across result slots. -/
theorem c1_strict_collection (docs : List SearchDocument) :
    collectStrict docs = docs.foldl (fun acc doc => acc ++ resultChunks acc doc) [] := by
  have h : strictStep = fun acc doc => acc ++ resultChunks acc doc :=
    funext fun acc => funext fun doc => strictStep_eq acc doc
  rw [collectStrict, h]

/-- Claim C1, counterexample: a result with both an extractive answer `"A"`
and a snippet `"B"` contributes both (the claim's mutually exclusive
collection would keep only `"A"`), and a later result whose link `"A"` is
already collected contributes nothing (the claim forbids deduplication
across result slots); the code's chunks and the claim's chunks differ. -/
theorem c1_counterexample :
    collectStrict [⟨some ⟨some [some "A"], some [some "B"], none⟩⟩,
                   ⟨some ⟨none, none, some "A"⟩⟩] = ["A", "B"] ∧
    claimCollect [⟨some ⟨some [some "A"], some [some "B"], none⟩⟩,
                  ⟨some ⟨none, none, some "A"⟩⟩] = ["A", "A"] ∧
    (["A", "B"] : List String) ≠ ["A", "A"] := by
  refine ⟨by decide, by decide, by decide⟩

/-- Claim C2, amended: when both tiers of `search_document_content` yield
zero chunks it returns the empty sequence, which the `/analyze` caller
surfaces as the 404 not-indexed response; but this outcome is not
distinguishable from a transport error: a raised search call is caught and
likewise produces the empty sequence, hence the identical 404. -/
theorem c2_empty_indistinguishable_from_error (env : SearchEnv)
    (docs fdocs : List SearchDocument) (fn : String) (resp : ModelResponse) :
    (env.strict = .ok docs → collectStrict docs = [] →
      env.fallback = .ok fdocs → collectFallback fdocs = [] →
      search_document_content env = []) ∧
    (env.strict = .err → search_document_content env = []) ∧
    (fn ≠ "" → search_document_content env = [] →
      analyze_script (some fn) env resp =
        .notFound (notFoundError (actualFilename fn)) notFoundInfo) := by
  refine ⟨?_, ?_, ?_⟩
  · intro hs hc hf hfc
    simp [search_document_content, hs, hc, hf, hfc]
  · intro hs
    simp [search_document_content, hs]
  · intro hfn hse
    simp [analyze_script, hfn, hse]

set_option maxRecDepth 8192 in
/-- Claim C2, counterexample: a transport error (`err` search outcome) and a
genuinely empty retrieval (`ok []` for both tiers) produce the same chunk
list and the same observable `/analyze` response, so the caller cannot
distinguish them, contrary to the claim. -/
theorem c2_counterexample :
    search_document_content ⟨.err, .err⟩ = [] ∧
    search_document_content ⟨.ok [], .ok []⟩ = [] ∧
    analyze_script (some "f.pdf") ⟨.err, .err⟩ ⟨[]⟩ =
      analyze_script (some "f.pdf") ⟨.ok [], .ok []⟩ ⟨[]⟩ := by
  refine ⟨by decide, by decide, by decide⟩

/-- Claim C2, witness: concrete empty retrieval returning `[]` and the 404
response. -/
theorem c2_witness :
    search_document_content ⟨.ok [], .ok []⟩ = [] ∧
    analyze_script (some "f.pdf") ⟨.ok [], .ok []⟩ ⟨[]⟩ =
      .notFound (notFoundError (actualFilename "f.pdf")) notFoundInfo :=
  ⟨(c2_empty_indistinguishable_from_error ⟨.ok [], .ok []⟩ [] [] "f.pdf" ⟨[]⟩).1
      rfl (by decide) rfl (by decide),
   (c2_empty_indistinguishable_from_error ⟨.ok [], .ok []⟩ [] [] "f.pdf" ⟨[]⟩).2.2
      (by decide)
      ((c2_empty_indistinguishable_from_error ⟨.ok [], .ok []⟩ [] [] "f.pdf" ⟨[]⟩).1
        rfl (by decide) rfl (by decide))⟩

/-- Claim C3, amended: `extract_document_metadata` assigns `topic` by the
second-token fallback whenever the chapter scan left `topic` empty — also
when a chapter marker was found as the last token — and more than one token
exists; with a single token and no topic from the scan, `topic` stays
empty.  In particular `extract("x_Kapitel3.pdf")` has `chapter = topic =
"Kapitel3"` (fallback despite a found marker), and
`extract("randomfile.pdf")` yields all-empty optional fields — the filename
does not become the topic. -/
theorem c3_topic_fallback (filename : String) :
    ((scanChapter (extractTokens filename)).2 = [] → 1 < (extractTokens filename).length →
      (extract_document_metadata filename).topic = ⟨(extractTokens filename).getD 1 []⟩) ∧
    ((scanChapter (extractTokens filename)).2 = [] → (extractTokens filename).length ≤ 1 →
      (extract_document_metadata filename).topic = "") ∧
    extract_document_metadata "x_Kapitel3.pdf" =
      { filename := "x_Kapitel3.pdf", chapter := "Kapitel3", topic := "Kapitel3",
        date := "", version := "" } := by
  refine ⟨?_, ?_, by decide⟩
  · intro h1 h2
    simp [extract_document_metadata, h1, h2]
  · intro h1 h2
    have h3 : ¬ (1 < (extractTokens filename).length) := by omega
    simp [extract_document_metadata, h1, h3]

/-- Claim C3, counterexample: `extract("randomfile.pdf")` yields
`topic = ""`, not `topic = "randomfile"` as the claim states for a
single-token key. -/
theorem c3_counterexample :
    extract_document_metadata "randomfile.pdf" =
      { filename := "randomfile.pdf", chapter := "", topic := "", date := "",
        version := "" } ∧
    (extract_document_metadata "randomfile.pdf").topic ≠ "randomfile" := by
  refine ⟨by decide, by decide⟩

/-- Claim C3, witness: the two-token key `"a_b.pdf"` takes the second-token
fallback. -/
theorem c3_witness :
    (scanChapter (extractTokens "a_b.pdf")).2 = [] ∧
    1 < (extractTokens "a_b.pdf").length ∧
    (extract_document_metadata "a_b.pdf").topic = ⟨(extractTokens "a_b.pdf").getD 1 []⟩ :=
  ⟨by decide, by decide, (c3_topic_fallback "a_b.pdf").1 (by decide) (by decide)⟩

/-- Claim C4: `generate_unique_filename` never returns a key that exists in
storage at call time; when the unsuffixed candidate already exists and the
`(1)`-suffixed candidate does not, it returns the `(1)`-suffixed form; and
any non-base result is the candidate of the first unused counter, probed in
strictly increasing order from 1 (every smaller counter names a stored
key).  The unbounded `while True` loop is modelled with fuel; `some`
results are exactly the runs the Python loop completes. -/
theorem c4_allocate_no_collision (storage : List String)
    (originalName timestamp : String) (fuel : Nat) :
    (∀ name, generate_unique_filename storage originalName timestamp fuel = some name →
       name ∉ storage) ∧
    (baseCandidate timestamp originalName ∈ storage →
       mkCandidate timestamp originalName 1 ∉ storage → 1 ≤ fuel →
       generate_unique_filename storage originalName timestamp fuel =
         some (mkCandidate timestamp originalName 1)) ∧
    (∀ name, generate_unique_filename storage originalName timestamp fuel = some name →
       name ≠ baseCandidate timestamp originalName →
       ∃ c, 1 ≤ c ∧ name = mkCandidate timestamp originalName c ∧
         mkCandidate timestamp originalName c ∉ storage ∧
         ∀ k, 1 ≤ k → k < c → mkCandidate timestamp originalName k ∈ storage) := by
  refine ⟨?_, ?_, ?_⟩
  · intro name h
    simp only [generate_unique_filename] at h
    by_cases hb : baseCandidate timestamp originalName ∈ storage
    · rw [if_pos hb] at h
      exact probeCounters_some_not_mem storage timestamp originalName fuel 1 name h
    · rw [if_neg hb] at h
      injection h with h
      exact h ▸ hb
  · intro hb h1 hf
    obtain ⟨n, rfl⟩ : ∃ n, fuel = n + 1 := ⟨fuel - 1, by omega⟩
    simp only [generate_unique_filename]
    rw [if_pos hb]
    simp only [probeCounters]
    rw [if_neg h1]
  · intro name h hne
    simp only [generate_unique_filename] at h
    by_cases hb : baseCandidate timestamp originalName ∈ storage
    · rw [if_pos hb] at h
      exact probeCounters_first storage timestamp originalName fuel 1 name h
    · rw [if_neg hb] at h
      injection h with h
      exact absurd h.symm hne

/-- Claim C4, witness: with exactly the unsuffixed candidate stored, the
allocator returns the `(1)`-suffixed form. -/
theorem c4_witness :
    baseCandidate "2026-02-01" "Notes" ∈ ["2026-02-01_Notes.pdf"] ∧
    mkCandidate "2026-02-01" "Notes" 1 ∉ ["2026-02-01_Notes.pdf"] ∧
    generate_unique_filename ["2026-02-01_Notes.pdf"] "Notes" "2026-02-01" 1 =
      some (mkCandidate "2026-02-01" "Notes" 1) :=
  ⟨by decide, by decide,
    (c4_allocate_no_collision ["2026-02-01_Notes.pdf"] "Notes" "2026-02-01" 1).2.1
      (by decide) (by decide) (by decide)⟩

/-- Claim C5, amended: the status endpoint does not list documents or match
source URIs; it derives a document ID by replacing `'/'` and `'.'` with
`'-'` in the filename and issues a direct get, reporting indexed (200)
exactly when a document with that derived ID exists, not-indexed (404) when
none does, and the outer 500 when the configured data-store ID is absent so
the ID derivation itself raises. -/
theorem c5_probe_by_derived_id (filename ds : String) (docs : List IndexedDoc) :
    (check_indexing_status filename ⟨some ds, docs⟩ = .indexed (appDocId filename) ↔
      ∃ d ∈ docs, d.id = appDocId filename) ∧
    (check_indexing_status filename ⟨some ds, docs⟩ = .notIndexed (appDocId filename) ↔
      ¬ ∃ d ∈ docs, d.id = appDocId filename) ∧
    check_indexing_status filename ⟨none, docs⟩ = .error := by
  refine ⟨?_, ?_, rfl⟩ <;>
  · by_cases h : ∃ d ∈ docs, d.id = appDocId filename
    · have ha : docs.any (fun d => d.id = appDocId filename) = true := by
        simpa [List.any_eq_true] using h
      simp [check_indexing_status, ha, h]
    · have ha : docs.any (fun d => d.id = appDocId filename) = false := by
        simp only [List.any_eq_false]
        intro d hd
        simp only [decide_eq_true_eq]
        exact fun he => h ⟨d, hd, he⟩
      simp [check_indexing_status, ha, h]

/-- Claim C5, counterexample: an index holding a document whose source URI
equals the requested URI (ingested by the indexer service under its MD5
ID).  The claim's listing-scan probe reports `INDEXED`, but
`check_indexing_status` gets by the dash-derived ID and reports
not-indexed. -/
theorem c5_counterexample :
    probeSpec "gs://ai-study-companion-bucket/f.pdf"
      (some [⟨indexerDocId "f.pdf", "gs://ai-study-companion-bucket/f.pdf"⟩]) = .INDEXED ∧
    check_indexing_status "f.pdf"
      ⟨some "ds", [⟨indexerDocId "f.pdf", "gs://ai-study-companion-bucket/f.pdf"⟩]⟩ =
      .notIndexed "f-pdf" := by
  refine ⟨by decide, by decide⟩

/-- Claim C5, witness: a document stored under the dash-derived ID is
reported as indexed. -/
theorem c5_witness :
    check_indexing_status "f.pdf" ⟨some "ds", [⟨"f-pdf", "u"⟩]⟩ =
      .indexed (appDocId "f.pdf") :=
  (c5_probe_by_derived_id "f.pdf" "ds" [⟨"f-pdf", "u"⟩]).1.mpr
    ⟨⟨"f-pdf", "u"⟩, by decide, by decide⟩

/-- Claim C6, amended: when the model returns no usable text the assembled
`analysis_result` is the empty string and `/analyze` still returns the
success (200) payload with that empty answer; only an empty retrieval — not
empty generation — is surfaced as the retryable 404. -/
theorem c6_empty_generation_is_success (fn : String) (env : SearchEnv)
    (resp : ModelResponse) (hfn : fn ≠ "")
    (hch : search_document_content env ≠ [])
    (he : assembleText resp = "") :
    analyze_script (some fn) env resp =
      .ok "" ["gs://ai-study-companion-bucket/" ++ actualFilename fn]
        (search_document_content env).length := by
  simp [analyze_script, hfn, hch, he]

/-- Claim C6, counterexample: with one retrieved chunk and a model response
carrying no candidates, `analyze_script` returns the success constructor
with an empty `analysis_result` — not a retryable not-found condition as
the claim states. -/
theorem c6_counterexample :
    analyze_script (some "f.pdf")
      ⟨.ok [⟨some ⟨some [some "chunk"], none, none⟩⟩], .err⟩ ⟨[]⟩ =
      .ok "" ["gs://ai-study-companion-bucket/f.pdf"] 1 := by decide

/-- Claim C6, witness: a response whose only candidate has a `None` part
and an empty part assembles to `""` and is returned as success. -/
theorem c6_witness :
    ("f.pdf" : String) ≠ "" ∧
    analyze_script (some "f.pdf")
        ⟨.ok [⟨some ⟨some [some "c"], none, none⟩⟩], .err⟩
        ⟨[⟨[⟨none⟩, ⟨some ""⟩]⟩]⟩ =
      .ok "" ["gs://ai-study-companion-bucket/" ++ actualFilename "f.pdf"]
        (search_document_content ⟨.ok [⟨some ⟨some [some "c"], none, none⟩⟩], .err⟩).length :=
  ⟨by decide,
   c6_empty_generation_is_success "f.pdf"
     ⟨.ok [⟨some ⟨some [some "c"], none, none⟩⟩], .err⟩
     ⟨[⟨[⟨none⟩, ⟨some ""⟩]⟩]⟩ (by decide) (by decide) (by decide)⟩

/-- Claim C7: the indexer service's derived document identifier is the MD5
hex digest of the object name — a deterministic content hash of the key, so
two ingestion calls for the same name (regardless of the event's bucket or
the service configuration) derive the same identifier — and both the
indexer's inline import request and the app's `trigger_indexing` import
request always use incremental reconciliation mode. -/
theorem c7_id_deterministic
    (p1 l1 d1 b1 p2 l2 d2 b2 name projectId dataStoreId gcsPath : String) :
    (indexerImportRequest p1 l1 d1 b1 name).docId =
      (indexerImportRequest p2 l2 d2 b2 name).docId ∧
    (indexerImportRequest p1 l1 d1 b1 name).docId = md5HexDigest name ∧
    (indexerImportRequest p1 l1 d1 b1 name).reconciliationMode = .INCREMENTAL ∧
    (trigger_indexing projectId dataStoreId gcsPath).reconciliationMode = .INCREMENTAL :=
  ⟨rfl, rfl, rfl, rfl⟩

/-- Claim C9, amended: the pre-split strip of `extract_document_metadata`
removes every occurrence of the substring `".pdf"`, which coincides with
removing only the trailing extension exactly when `".pdf"` occurs nowhere
but at the end of the key. -/
theorem c9_strip_trailing_equiv (key : List Char)
    (h : ∀ i, i < key.length → pdfOccursAt key i = true → i + 4 = key.length) :
    pyReplace key ".pdf".data [] = specStripTrailingExt key := by
  have hl4 : (".pdf".data : List Char).length = 4 := rfl
  induction key with
  | nil => decide
  | cons c rest ih =>
    by_cases hp : ".pdf".data.isPrefixOf (c :: rest) = true
    · have h0 : pdfOccursAt (c :: rest) 0 = true := by simpa [pdfOccursAt] using hp
      have hlen : (0 : Nat) + 4 = (c :: rest).length := h 0 (by simp) h0
      have hpre : ".pdf".data <+: (c :: rest) := (isPrefixOfChar_iff _ _).mp hp
      have heq : ".pdf".data = c :: rest := hpre.eq_of_length (by omega)
      rw [← heq]
      decide
    · have hstep : pyReplace (c :: rest) ".pdf".data [] = c :: pyReplace rest ".pdf".data [] := by
        show pyReplaceAux _ _ (c :: rest).length (c :: rest) = c :: pyReplaceAux _ _ rest.length rest
        simp only [List.length_cons, pyReplaceAux]
        rw [if_neg (by simp [hp])]
      have hrest : ∀ i, i < rest.length → pdfOccursAt rest i = true → i + 4 = rest.length := by
        intro i hi hocc
        have hocc2 : pdfOccursAt (c :: rest) (i + 1) = true := by
          simpa [pdfOccursAt, List.drop_succ_cons] using hocc
        have hlt : i + 1 < (c :: rest).length := by rw [List.length_cons]; omega
        have hcon := h (i + 1) hlt hocc2
        rw [List.length_cons] at hcon
        omega
      rw [hstep, ih hrest]
      by_cases hsuf : ".pdf".data.isSuffixOf rest = true
      · have hsufP : ".pdf".data <:+ rest := (isSuffixOfChar_iff _ _).mp hsuf
        have hlen4 : 4 ≤ rest.length := by
          have h5 := hsufP.length_le
          omega
        have hsufC : ".pdf".data.isSuffixOf (c :: rest) = true :=
          (isSuffixOfChar_iff _ _).mpr (hsufP.trans (List.suffix_cons c rest))
        simp only [specStripTrailingExt, hsuf, hsufC, if_pos, List.length_cons]
        rw [show (rest.length + 1) - 4 = (rest.length - 4) + 1 by omega]
        simp [List.take_succ_cons]
      · have hsufC : ¬ ".pdf".data.isSuffixOf (c :: rest) = true := by
          intro hs
          have hsP : ".pdf".data <:+ c :: rest := (isSuffixOfChar_iff _ _).mp hs
          rcases List.suffix_cons_iff.mp hsP with heq | htail
          · exact hp ((isPrefixOfChar_iff _ _).mpr (heq ▸ List.prefix_refl _))
          · exact hsuf ((isSuffixOfChar_iff _ _).mpr htail)
        simp [specStripTrailingExt, hsuf, hsufC]

/-- Claim C9, counterexample: for the key `"a.pdf_b.pdf"` the code's strip
removes both occurrences of `".pdf"` and tokenizes to `["a", "b"]`, while
removing only the trailing extension would tokenize to `["a.pdf", "b"]`. -/
theorem c9_counterexample :
    pyReplace "a.pdf_b.pdf".data ".pdf".data [] = "a_b".data ∧
    specStripTrailingExt "a.pdf_b.pdf".data = "a.pdf_b".data ∧
    "a_b".data ≠ "a.pdf_b".data ∧
    extractTokens "a.pdf_b.pdf" = ["a".data, "b".data] := by
  refine ⟨by decide, by decide, by decide, by decide⟩

/-- Claim C9, witness: for `"notes.pdf"` the only `".pdf"` occurrence is
trailing, and the code's strip agrees with trailing-extension removal. -/
theorem c9_witness :
    (∀ i, i < ("notes.pdf" : String).data.length →
      pdfOccursAt "notes.pdf".data i = true → i + 4 = "notes.pdf".data.length) ∧
    pyReplace "notes.pdf".data ".pdf".data [] = specStripTrailingExt "notes.pdf".data :=
  ⟨by decide, c9_strip_trailing_equiv "notes.pdf".data (by decide)⟩

/-- Claim C10: for every object name ending in `".pdf"`, the status
endpoint's dash-replaced document ID differs from the indexer service's MD5
hex-digest ID (the former contains `'-'`, which never occurs in a hex
digest), so a document ingested by the indexer service under its derived ID
is reported as not indexed by the status endpoint. -/
theorem c10_incompatible_ids (name uri ds : String)
    (h : ".pdf".data <:+ name.data) :
    appDocId name ≠ indexerDocId name ∧
    check_indexing_status name ⟨some ds, [⟨indexerDocId name, uri⟩]⟩ =
      .notIndexed (appDocId name) := by
  have hdot : '.' ∈ name.data := h.subset (by decide)
  have hd : '-' ∈ (appDocId name).data := dash_mem_appDocId name hdot
  have hnot : '-' ∉ (indexerDocId name).data := dash_not_mem_md5HexDigest name
  have hne : appDocId name ≠ indexerDocId name := by
    intro he
    rw [he] at hd
    exact hnot hd
  refine ⟨hne, ?_⟩
  have hne2 : ¬ (indexerDocId name = appDocId name) := fun he => hne he.symm
  simp only [check_indexing_status, List.any_cons, List.any_nil, Bool.or_false]
  rw [if_neg (by simpa using hne2)]

/-- Claim C10, witness: the concrete name `"f.pdf"` ends in `".pdf"` and
its two derived identifiers differ. -/
theorem c10_witness :
    (".pdf".data <:+ ("f.pdf" : String).data) ∧
    appDocId "f.pdf" ≠ indexerDocId "f.pdf" :=
  ⟨⟨"f".data, by decide⟩, (c10_incompatible_ids "f.pdf" "u" "ds" ⟨"f".data, by decide⟩).1⟩

end StudyCompanion
